import Mathlib

/-!
Shallow embedding of the direct-messaging subsystem of the repository:

* the Conversation mongoose model (src/unnamed/part_010),
* the Message mongoose model (src/instagram-clone/backend/models/Message.js),
* the canMessageUser middleware (src/instagram-clone/backend/middleware/auth.js),
* the message routes (src/instagram-clone/backend/routes/messages.js).

User ids, message ids, conversation ids and timestamps are `Nat`
(timestamps in milliseconds, as `Date.now()` yields).  Mongoose documents
become structures holding the fields that the modelled operations read or
write; schema fields never touched by those operations are omitted.
JavaScript `Array.prototype.find` becomes `List.find?`; the JS pattern of
mutating the element that `find` returned becomes `updateFirst`, which
rewrites only the first matching element of the list.  Route handlers
become pure functions from their inputs (the looked-up documents and the
request data) to `Except` of an error type enumerating the handler's
error responses.
-/

namespace Messaging

/-- Helper: rewrite the first element satisfying `p` with `f`, leave the
rest alone.  This is the JS idiom `const x = arr.find(p); if (x) mutate(x)`. -/
def updateFirst (p : α → Bool) (f : α → α) : List α → List α
  | [] => []
  | x :: xs => if p x then f x :: xs else x :: updateFirst p f xs

/-- Entry of `conversationSchema.unreadCounts` (part_010 lines 49-62). -/
structure UnreadEntry where
  user : Nat
  count : Nat
  lastReadAt : Nat
deriving DecidableEq

/-- Entry of `conversationSchema.settings.participantSettings`
(part_010 lines 66-97); the nested notification preferences are never read
or written by the modelled routes and are omitted. -/
structure ParticipantSetting where
  user : Nat
  isMuted : Bool
  isPinned : Bool
  isArchived : Bool
deriving DecidableEq

/-- The Conversation document (part_010).  `totalMessages` stands for
`metadata.totalMessages`; `participantSettings` stands for
`settings.participantSettings`. -/
structure Conversation where
  id : Nat
  participants : List Nat
  isGroup : Bool
  lastMessage : Option Nat
  lastMessageAt : Nat
  unreadCounts : List UnreadEntry
  participantSettings : List ParticipantSetting
  isDeleted : Bool
  totalMessages : Nat
deriving DecidableEq

/-- Lookup of the unread count recorded for a user in an `unreadCounts`
list: the count of the first entry for that user, `0` when there is none
(part_010 lines 189-196, the `getUnreadCount` virtual). -/
def unreadCountIn (l : List UnreadEntry) (u : Nat) : Nat :=
  match l.find? (fun d => d.user == u) with
  | some d => d.count
  | none => 0

/-- Method `getUnreadCount` (part_010 lines 189-196). -/
def Conversation.getUnreadCount (c : Conversation) (userId : Nat) : Nat :=
  unreadCountIn c.unreadCounts userId

/-- List-level body of `incrementUnreadCount` (part_010 lines 245-253):
increment the count of the first entry for the user, if any. -/
def incrEntries (l : List UnreadEntry) (u : Nat) : List UnreadEntry :=
  updateFirst (fun d => d.user == u) (fun d => { d with count := d.count + 1 }) l

/-- Method `incrementUnreadCount` (part_010 lines 245-253). -/
def Conversation.incrementUnreadCount (c : Conversation) (userId : Nat) : Conversation :=
  { c with unreadCounts := incrEntries c.unreadCounts userId }

/-- Method `markAsRead` (part_010 lines 256-265): zero the count and stamp
`lastReadAt` on the first entry for the user, if any. -/
def Conversation.markAsRead (c : Conversation) (userId now : Nat) : Conversation :=
  { c with unreadCounts :=
      (updateFirst (fun d => d.user == userId)
        (fun d => { d with count := 0, lastReadAt := now }) c.unreadCounts) }

/-- Method `muteForUser` (part_010 lines 268-276). -/
def Conversation.muteForUser (c : Conversation) (userId : Nat) : Conversation :=
  { c with participantSettings :=
      (updateFirst (fun s => s.user == userId)
        (fun s => { s with isMuted := true }) c.participantSettings) }

/-- Method `unmuteForUser` (part_010 lines 279-287). -/
def Conversation.unmuteForUser (c : Conversation) (userId : Nat) : Conversation :=
  { c with participantSettings :=
      (updateFirst (fun s => s.user == userId)
        (fun s => { s with isMuted := false }) c.participantSettings) }

/-- Method `updateLastMessage` (part_010 lines 237-242). -/
def Conversation.updateLastMessage (c : Conversation) (messageId now : Nat) : Conversation :=
  { c with lastMessage := some messageId, lastMessageAt := now,
           totalMessages := c.totalMessages + 1 }

/-- Content type tag of a message (Message.js lines 20-24). -/
inductive ContentType
  | text
  | image
  | video
  | audio
  | file
  | location
  | contact
deriving DecidableEq

/-- Media payload of a message (Message.js lines 30-36; the thumbnail and
duration fields are never set by the send route and are omitted). -/
structure MediaInfo where
  url : String
  filename : String
  size : Nat
deriving DecidableEq

/-- Message content (Message.js lines 19-56; the location and contact
payload variants are never populated by the modelled routes). -/
structure MessageContent where
  type : ContentType
  text : String
  media : Option MediaInfo
deriving DecidableEq

/-- Entry of `messageSchema.reactions` (Message.js lines 69-82). -/
structure Reaction where
  user : Nat
  emoji : String
  createdAt : Nat
deriving DecidableEq

/-- Entry of `messageSchema.editHistory` (Message.js lines 105-111). -/
structure EditEntry where
  text : String
  editedAt : Nat
deriving DecidableEq

/-- The Message document (Message.js), restricted to the fields the
modelled routes and methods touch. -/
structure Message where
  id : Nat
  conversation : Nat
  sender : Nat
  recipient : Nat
  content : MessageContent
  isRead : Bool
  isDelivered : Bool
  reactions : List Reaction
  replyTo : Option Nat
  isEdited : Bool
  editedAt : Option Nat
  editHistory : List EditEntry
  isDeleted : Bool
  isScheduled : Bool
  scheduledFor : Option Nat
  createdAt : Nat
deriving DecidableEq

/-- Method `addReaction` (Message.js lines 192-200): drop any existing
reaction from this user, then push the new one at the end. -/
def Message.addReaction (m : Message) (userId : Nat) (emoji : String) (now : Nat) : Message :=
  { m with reactions :=
      (m.reactions.filter (fun r => r.user != userId)) ++
        [{ user := userId, emoji := emoji, createdAt := now }] }

/-- Method `removeReaction` (Message.js lines 203-208). -/
def Message.removeReaction (m : Message) (userId : Nat) : Message :=
  { m with reactions := m.reactions.filter (fun r => r.user != userId) }

/-- Method `getUserReaction` (Message.js lines 218-223). -/
def Message.getUserReaction (m : Message) (userId : Nat) : Option String :=
  match m.reactions.find? (fun r => r.user == userId) with
  | some r => some r.emoji
  | none => none

/-- Method `edit` (Message.js lines 226-239): only for text-typed content,
append the pre-edit text to the history, replace the text and set the
edited flags; otherwise save without change. -/
def Message.edit (m : Message) (newText : String) (now : Nat) : Message :=
  if m.content.type = ContentType.text then
    { m with editHistory := m.editHistory ++ [{ text := m.content.text, editedAt := now }],
             content := { m.content with text := newText },
             isEdited := true,
             editedAt := some now }
  else m

/-- Messaging privacy policy of a user
(`privacySettings.allowMessagesFrom` read by auth.js line 123). -/
inductive MessagePrivacy
  | everyone
  | followers
deriving DecidableEq

/-- The User document, restricted to the fields `canMessageUser` reads. -/
structure User where
  id : Nat
  blockedUsers : List Nat
  followers : List Nat
  allowMessagesFrom : MessagePrivacy
deriving DecidableEq

/-- Error responses of the `canMessageUser` middleware
(auth.js lines 99-136). -/
inductive CanMessageError
  | selfMessage
  | recipientNotFound
  | blocked
  | followersOnly
deriving DecidableEq

/-- Middleware `canMessageUser` (auth.js lines 99-136).  `recipient` is
the result of the `User.findById(recipientId)` lookup. -/
def canMessageUser (currentUser : User) (recipientId : Nat) (recipient : Option User) :
    Except CanMessageError Unit :=
  if currentUser.id == recipientId then .error .selfMessage
  else
    match recipient with
    | none => .error .recipientNotFound
    | some r =>
      if r.blockedUsers.contains currentUser.id then .error .blocked
      else if currentUser.blockedUsers.contains recipientId then .error .blocked
      else if r.allowMessagesFrom = MessagePrivacy.followers then
        if r.followers.contains currentUser.id then .ok () else .error .followersOnly
      else .ok ()

/-- State of the conversation collection: the stored documents in
insertion order, plus a fresh-id counter standing for ObjectId generation. -/
structure MessagingDB where
  conversations : List Conversation
  nextConversationId : Nat
deriving DecidableEq

/-- The query of messages.js lines 97-101: both users among the
participants (`$all`), not a group, not soft-deleted. -/
def directQueryMatches (me recipientId : Nat) (c : Conversation) : Bool :=
  c.participants.contains me && c.participants.contains recipientId &&
    !c.isGroup && !c.isDeleted

/-- `Conversation.findOne` of messages.js lines 97-101: first stored
conversation matching the direct-pair query. -/
def findDirectConversation (db : MessagingDB) (me recipientId : Nat) : Option Conversation :=
  db.conversations.find? (directQueryMatches me recipientId)

/-- The document built by `new Conversation(...)` at messages.js lines
104-107: only `participants` and `isGroup` are supplied, every other field
takes its schema default — in particular `unreadCounts` and
`participantSettings` default to empty lists. -/
def newDirectConversation (id me recipientId now : Nat) : Conversation :=
  { id := id
    participants := [me, recipientId]
    isGroup := false
    lastMessage := none
    lastMessageAt := now
    unreadCounts := []
    participantSettings := []
    isDeleted := false
    totalMessages := 0 }

/-- Direct branch of `POST /conversations` (messages.js lines 96-109):
return the first existing matching conversation, else create and store a
fresh one. -/
def findOrCreateDirect (db : MessagingDB) (me recipientId now : Nat) :
    Nat × MessagingDB :=
  match findDirectConversation db me recipientId with
  | some c => (c.id, db)
  | none =>
    let c := newDirectConversation db.nextConversationId me recipientId now
    (c.id, { conversations := db.conversations ++ [c],
             nextConversationId := db.nextConversationId + 1 })

/-- Route `POST /conversations` with a `recipientId` body (messages.js
line 68 plus lines 96-116): the `canMessageUser` middleware runs first,
then the find-or-create branch. -/
def createConversationRoute (currentUser : User) (recipient : Option User)
    (recipientId : Nat) (db : MessagingDB) (now : Nat) :
    Except CanMessageError (Nat × MessagingDB) :=
  match canMessageUser currentUser recipientId recipient with
  | .error e => .error e
  | .ok _ => .ok (findOrCreateDirect db currentUser.id recipientId now)

/-- Mute state the send route reads at messages.js lines 235-240:
`userSetting && userSetting.isMuted`. -/
def isMutedFor (c : Conversation) (userId : Nat) : Bool :=
  match c.participantSettings.find? (fun s => s.user == userId) with
  | some s => s.isMuted
  | none => false

/-- Recipient determination of messages.js lines 243-246: the sender
itself for a group, otherwise the first participant different from the
sender (`undefined`, modelled as `none`, when there is no such one). -/
def messageRecipient (c : Conversation) (senderId : Nat) : Option Nat :=
  if c.isGroup then some senderId
  else c.participants.find? (fun p => p != senderId)

/-- Helper for `jsTrim`: drop whitespace characters from the front. -/
def dropLeadingWhitespace : List Char → List Char
  | [] => []
  | c :: cs => if c.isWhitespace then dropLeadingWhitespace cs else c :: cs

/-- JavaScript `String.prototype.trim` — also the behaviour of the
mongoose `trim: true` setter: strip whitespace from both ends. -/
def jsTrim (s : String) : String :=
  String.mk ((dropLeadingWhitespace (dropLeadingWhitespace s.data).reverse).reverse)

/-- Error responses of `POST /conversations/:conversationId/messages`
(messages.js lines 219-301).  `missingRecipient` stands for the mongoose
required-field failure when a direct conversation yields no recipient,
and `textTooLong` for the mongoose maxlength-1000 validation failure on
`content.text` (Message.js lines 25-28) — both make `save()` throw, which
the route's catch answers with HTTP 500. -/
inductive SendError
  | conversationNotFound
  | notParticipant
  | mutedConversation
  | missingRecipient
  | textTooLong
deriving DecidableEq

/-- Uploaded file as the route sees it after multer (`req.file`);
`contentType` is the image/video/audio/file tag the route derives from
the mimetype at messages.js lines 256-258. -/
structure FileUpload where
  contentType : ContentType
  url : String
  filename : String
  size : Nat
deriving DecidableEq

/-- Message content built at messages.js lines 249-264: text type with the
given body (schema default makes an absent body the empty string), the
type and media overridden when a file was uploaded. -/
def buildMessageContent (text : String) (file : Option FileUpload) : MessageContent :=
  match file with
  | none => { type := ContentType.text, text := text, media := none }
  | some f =>
    { type := f.contentType, text := text,
      media := some { url := f.url, filename := f.filename, size := f.size } }

/-- Content as the Message document stores it: the schema's `trim: true`
setter on `content.text` (Message.js lines 25-28) trims the body at
document construction. -/
def storedContent (c : MessageContent) : MessageContent :=
  { c with text := jsTrim c.text }

/-- Route `POST /conversations/:conversationId/messages` (messages.js
lines 219-301), with no scheduling parameter supplied.  `conv` is the
result of the `Conversation.findById` lookup.  The persisted message
carries the schema-normalised content (`storedContent`), and `save()`
fails — surfacing as HTTP 500 — when the stored text exceeds the schema's
maxlength of 1000 characters.  On success the route returns the persisted
message and the updated conversation. -/
def sendMessageRoute (conv : Option Conversation) (senderId : Nat)
    (text : String) (file : Option FileUpload) (replyTo : Option Nat)
    (messageId now : Nat) : Except SendError (Message × Conversation) :=
  match conv with
  | none => .error .conversationNotFound
  | some conversation =>
    if !(conversation.participants.contains senderId) then .error .notParticipant
    else if isMutedFor conversation senderId then .error .mutedConversation
    else
      match messageRecipient conversation senderId with
      | none => .error .missingRecipient
      | some recipientId =>
        if (storedContent (buildMessageContent text file)).text.length > 1000 then
          .error .textTooLong
        else
        let message : Message :=
          { id := messageId
            conversation := conversation.id
            sender := senderId
            recipient := recipientId
            content := storedContent (buildMessageContent text file)
            isRead := false
            isDelivered := false
            reactions := []
            replyTo := replyTo
            isEdited := false
            editedAt := none
            editHistory := []
            isDeleted := false
            isScheduled := false
            scheduledFor := none
            createdAt := now }
        let afterLast := conversation.updateLastMessage messageId now
        let afterUnread :=
          if conversation.isGroup then afterLast
          else afterLast.incrementUnreadCount recipientId
        .ok (message, afterUnread)

/-- Error responses of `PUT /:messageId` (messages.js lines 306-345). -/
inductive EditError
  | textRequired
  | messageNotFound
  | notAuthor
  | editWindowExpired
deriving DecidableEq

/-- Edit window of messages.js line 326: fifteen minutes in milliseconds. -/
def editTimeLimit : Nat := 15 * 60 * 1000

/-- Route `PUT /:messageId` (messages.js lines 306-345).  `msg` is the
result of the `Message.findById` lookup. -/
def editMessageRoute (msg : Option Message) (editorId : Nat) (text : String)
    (now : Nat) : Except EditError Message :=
  if (jsTrim text).length == 0 then .error .textRequired
  else
    match msg with
    | none => .error .messageNotFound
    | some m =>
      if m.isDeleted then .error .messageNotFound
      else if m.sender != editorId then .error .notAuthor
      else if now - m.createdAt > editTimeLimit then .error .editWindowExpired
      else .ok (m.edit (jsTrim text) now)

/-- Error responses of `GET /conversations/:conversationId/messages`
(messages.js lines 159-214). -/
inductive ListError
  | conversationNotFound
  | notParticipant
deriving DecidableEq

/-- Sort key of messages.js line 183: sort by `createdAt: -1`, descending
creation time. -/
def byCreatedAtDesc (a b : Message) : Bool :=
  decide (b.createdAt ≤ a.createdAt)

/-- Route `GET /conversations/:conversationId/messages` (messages.js lines
159-214): after the participant check, filter out other conversations and
soft-deleted messages, sort by descending creation time, apply skip and
limit, and return the page reversed into chronological order. -/
def listMessagesRoute (conv : Option Conversation) (requesterId : Nat)
    (allMessages : List Message) (limit skip : Nat) :
    Except ListError (List Message) :=
  match conv with
  | none => .error .conversationNotFound
  | some conversation =>
    if !(conversation.participants.contains requesterId) then .error .notParticipant
    else
      let matching := allMessages.filter
        (fun m => m.conversation == conversation.id && !m.isDeleted)
      let page := ((matching.mergeSort byCreatedAtDesc).drop skip).take limit
      .ok page.reverse

/-- Reaction-set invariant of the spec data model: the users of a
message's reactions are pairwise distinct, i.e. at most one reaction per
user per message. -/
def atMostOneReactionPerUser (m : Message) : Prop :=
  m.reactions.Pairwise (fun r1 r2 => r1.user ≠ r2.user)

instance (m : Message) : Decidable (atMostOneReactionPerUser m) := by
  unfold atMostOneReactionPerUser
  exact List.instDecidablePairwise m.reactions

/-- Direct conversation of users 1 and 2 carrying the per-participant
unread entries and settings that `addParticipant` (part_010 lines 203-224)
would maintain — unlike the conversations the route itself creates. -/
def seededDirect : Conversation :=
  { id := 0
    participants := [1, 2]
    isGroup := false
    lastMessage := none
    lastMessageAt := 0
    unreadCounts := [{ user := 1, count := 0, lastReadAt := 0 },
                     { user := 2, count := 0, lastReadAt := 0 }]
    participantSettings :=
      [{ user := 1, isMuted := false, isPinned := false, isArchived := false },
       { user := 2, isMuted := false, isPinned := false, isArchived := false }]
    isDeleted := false
    totalMessages := 0 }

/-- Variant of `seededDirect` in which user 1 has muted the conversation
for herself. -/
def mutedForOne : Conversation :=
  { seededDirect with participantSettings :=
      [{ user := 1, isMuted := true, isPinned := false, isArchived := false },
       { user := 2, isMuted := false, isPinned := false, isArchived := false }] }

/-- Group conversation of users 1, 2 and 3 with zeroed unread entries. -/
def seededGroup : Conversation :=
  { id := 4
    participants := [1, 2, 3]
    isGroup := true
    lastMessage := none
    lastMessageAt := 0
    unreadCounts := [{ user := 1, count := 0, lastReadAt := 0 },
                     { user := 2, count := 0, lastReadAt := 0 },
                     { user := 3, count := 0, lastReadAt := 0 }]
    participantSettings := []
    isDeleted := false
    totalMessages := 0 }

/-- Sample stored text message from user 1 to user 2. -/
def sampleMessage : Message :=
  { id := 5
    conversation := 0
    sender := 1
    recipient := 2
    content := { type := ContentType.text, text := "hi", media := none }
    isRead := false
    isDelivered := false
    reactions := []
    replyTo := none
    isEdited := false
    editedAt := none
    editHistory := []
    isDeleted := false
    isScheduled := false
    scheduledFor := none
    createdAt := 1000 }

/-- Sample sender for the conversation-creation route. -/
def sampleSender : User :=
  { id := 1, blockedUsers := [], followers := [],
    allowMessagesFrom := MessagePrivacy.everyone }

/-- Sample recipient who accepts messages from followers and is followed
by `sampleSender`. -/
def sampleRecipient : User :=
  { id := 2, blockedUsers := [], followers := [1],
    allowMessagesFrom := MessagePrivacy.followers }

/-- Rewriting the first match is the identity when nothing matches. -/
theorem updateFirst_of_forall_not {p : α → Bool} {f : α → α} {l : List α}
    (h : ∀ x ∈ l, p x = false) : updateFirst p f l = l := by
  induction l with
  | nil => rfl
  | cons x xs ih =>
    have hx : p x = false := h x (List.mem_cons_self x xs)
    simp only [updateFirst, hx, Bool.false_eq_true, if_false]
    exact congrArg (x :: ·) (ih fun y hy => h y (List.mem_cons_of_mem x hy))

/-- C10: for a user without an entry in `unreadCounts` and without one in
`participantSettings` — as holds for every user on a route-created direct
conversation — `incrementUnreadCount`, `markAsRead`, `muteForUser` and
`unmuteForUser` return the conversation unchanged: no entry is created
and no counter or flag changes. -/
theorem missing_entry_operations_are_noops (c : Conversation) (u now : Nat)
    (hunread : ∀ d ∈ c.unreadCounts, (d.user == u) = false)
    (hsettings : ∀ s ∈ c.participantSettings, (s.user == u) = false) :
    c.incrementUnreadCount u = c ∧ c.markAsRead u now = c ∧
      c.muteForUser u = c ∧ c.unmuteForUser u = c := by
  refine ⟨?_, ?_, ?_, ?_⟩ <;>
    simp [Conversation.incrementUnreadCount, incrEntries, Conversation.markAsRead,
      Conversation.muteForUser, Conversation.unmuteForUser,
      updateFirst_of_forall_not hunread, updateFirst_of_forall_not hsettings]

/-- Witness for C10: user 3 has no entries on `seededDirect`, and all four
operations leave the conversation untouched. -/
theorem missing_entry_operations_are_noops_witness :
    seededDirect.incrementUnreadCount 3 = seededDirect ∧
      seededDirect.markAsRead 3 9 = seededDirect ∧
      seededDirect.muteForUser 3 = seededDirect ∧
      seededDirect.unmuteForUser 3 = seededDirect :=
  missing_entry_operations_are_noops seededDirect 3 9 (by decide) (by decide)

/-- C1: evaluation at the failing input.  On an empty store, the direct
branch of `POST /conversations` for users 1 and 2 creates the conversation
through `new Conversation` with only `participants` and `isGroup`
supplied, so its `unreadCounts` is the schema default — the empty list —
rather than one zeroed entry per participant. -/
theorem direct_creation_has_no_unread_entries :
    (findOrCreateDirect { conversations := [], nextConversationId := 0 } 1 2 0).2.conversations =
        [newDirectConversation 0 1 2 0] ∧
      (newDirectConversation 0 1 2 0).participants = [1, 2] ∧
      (newDirectConversation 0 1 2 0).unreadCounts = [] :=
  ⟨rfl, rfl, rfl⟩

/-- C2: evaluation at the failing input.  Into the direct conversation the
route itself created, user 1 sends one message; the send succeeds, yet
user 2's unread count reads 0 instead of 1, because `incrementUnreadCount`
finds no `unreadCounts` entry to increment. -/
theorem unread_count_stays_zero_after_send :
    (sendMessageRoute (some (newDirectConversation 0 1 2 0)) 1 "hi" none none 10 5).toOption.map
        (fun r => r.2.getUnreadCount 2) = some 0 := by
  rfl

/-- C3 counterexample: a send with an empty text body and no media into a
valid direct conversation does not fail and persists a text-typed message
with empty body. -/
theorem empty_text_send_succeeds_ctrex :
    (sendMessageRoute (some seededDirect) 1 "" none none 10 5).toOption.map
        (fun r => (r.1.content.type, r.1.content.text, r.1.content.media)) =
      some (ContentType.text, "", none) := by
  rfl

/-- Filtering a user's reactions out leaves nothing for that user. -/
theorem filter_user_eq_of_filter_user_ne (l : List Reaction) (u : Nat) :
    (l.filter (fun r => r.user != u)).filter (fun r => r.user == u) = [] := by
  rw [List.filter_filter]
  apply List.filter_eq_nil_iff.mpr
  intro r _
  simp

/-- Looking a user up among the reactions of the other users fails. -/
theorem find?_user_eq_of_filter_user_ne (l : List Reaction) (u : Nat) :
    (l.filter (fun r => r.user != u)).find? (fun r => r.user == u) = none := by
  apply List.find?_eq_none.mpr
  intro r hr
  rw [List.mem_filter] at hr
  simpa using hr.2

/-- C8: distinctness of reaction users is preserved by `addReaction` and
`removeReaction`, and after a user reacts — also when replacing an earlier
reaction with a different emoji — exactly one reaction is recorded for
that user, carrying the latest emoji. -/
theorem reactions_unique_per_user (m : Message) (u : Nat) (e : String) (t : Nat)
    (hinv : atMostOneReactionPerUser m) :
    atMostOneReactionPerUser (m.addReaction u e t) ∧
      atMostOneReactionPerUser (m.removeReaction u) ∧
      (m.addReaction u e t).reactions.filter (fun r => r.user == u) =
        [{ user := u, emoji := e, createdAt := t }] ∧
      (m.addReaction u e t).getUserReaction u = some e := by
  unfold atMostOneReactionPerUser at hinv
  refine ⟨?_, ?_, ?_, ?_⟩
  · unfold atMostOneReactionPerUser Message.addReaction
    rw [List.pairwise_append]
    refine ⟨hinv.filter _, List.pairwise_singleton _ _, ?_⟩
    intro a ha b hb
    rw [List.mem_filter] at ha
    rw [List.mem_singleton] at hb
    subst hb
    simpa using ha.2
  · exact hinv.filter _
  · show ((m.reactions.filter _) ++ [_]).filter _ = _
    rw [List.filter_append, filter_user_eq_of_filter_user_ne]
    simp
  · unfold Message.getUserReaction Message.addReaction
    rw [List.find?_append, find?_user_eq_of_filter_user_ne]
    simp

/-- Witness for C8: user 7 re-reacts with a different emoji on a message
already holding a reaction of hers. -/
theorem reactions_unique_per_user_witness :
    atMostOneReactionPerUser ((sampleMessage.addReaction 7 "a" 1).addReaction 7 "b" 2) ∧
      atMostOneReactionPerUser ((sampleMessage.addReaction 7 "a" 1).removeReaction 7) ∧
      ((sampleMessage.addReaction 7 "a" 1).addReaction 7 "b" 2).reactions.filter
          (fun r => r.user == 7) = [{ user := 7, emoji := "b", createdAt := 2 }] ∧
      ((sampleMessage.addReaction 7 "a" 1).addReaction 7 "b" 2).getUserReaction 7 = some "b" :=
  reactions_unique_per_user (sampleMessage.addReaction 7 "a" 1) 7 "b" 2 (by decide)

/-- The text field of the content the route builds is the request body in
both the text-only and the media branch. -/
theorem buildMessageContent_text (text : String) (file : Option FileUpload) :
    (buildMessageContent text file).text = text := by
  cases file <;> rfl

/-- Computation of the send route on the success path: for an active,
unmuted sender with a resolved recipient and a body within the schema's
length bound after trimming, the route persists the built message and
updates the conversation. -/
theorem sendMessageRoute_ok (conv : Conversation) (senderId : Nat) (text : String)
    (file : Option FileUpload) (replyTo : Option Nat) (messageId now r : Nat)
    (hpart : conv.participants.contains senderId = true)
    (hmute : isMutedFor conv senderId = false)
    (hr : messageRecipient conv senderId = some r)
    (hlen : (jsTrim text).length ≤ 1000) :
    sendMessageRoute (some conv) senderId text file replyTo messageId now =
      .ok ({ id := messageId
             conversation := conv.id
             sender := senderId
             recipient := r
             content := storedContent (buildMessageContent text file)
             isRead := false
             isDelivered := false
             reactions := []
             replyTo := replyTo
             isEdited := false
             editedAt := none
             editHistory := []
             isDeleted := false
             isScheduled := false
             scheduledFor := none
             createdAt := now },
           if conv.isGroup then conv.updateLastMessage messageId now
           else (conv.updateLastMessage messageId now).incrementUnreadCount r) := by
  have hmem : senderId ∈ conv.participants := by simpa using hpart
  have hlen2 : ¬((storedContent (buildMessageContent text file)).text.length > 1000) := by
    simp only [storedContent, buildMessageContent_text]
    omega
  simp [sendMessageRoute, hmem, hmute, hr, hlen2]

/-- C3 (amended): the send route accepts a text-typed message with an
empty or whitespace-only body and no media: for any active, unmuted
sender with a resolvable recipient the call succeeds and the persisted
message is text-typed with no media and an empty stored body (the
schema's trim setter strips the whitespace). -/
theorem send_accepts_empty_text (conv : Conversation) (senderId : Nat)
    (text : String) (replyTo : Option Nat) (messageId now : Nat)
    (hempty : jsTrim text = "")
    (hpart : conv.participants.contains senderId = true)
    (hmute : isMutedFor conv senderId = false)
    (hrecip : (messageRecipient conv senderId).isSome = true) :
    ∃ m c2,
      sendMessageRoute (some conv) senderId text none replyTo messageId now = .ok (m, c2) ∧
        m.content = { type := ContentType.text, text := "", media := none } := by
  obtain ⟨r, hr⟩ := Option.isSome_iff_exists.mp hrecip
  have hlen : (jsTrim text).length ≤ 1000 := by
    rw [hempty]
    simp
  refine ⟨_, _, sendMessageRoute_ok conv senderId text none replyTo messageId now r
    hpart hmute hr hlen, ?_⟩
  simp [storedContent, buildMessageContent, hempty]

/-- Witness for C3 (amended): user 1 sends a whitespace-only body into
`seededDirect`; the persisted body is empty. -/
theorem send_accepts_empty_text_witness :
    ∃ m c2,
      sendMessageRoute (some seededDirect) 1 " " none none 10 5 = .ok (m, c2) ∧
        m.content = { type := ContentType.text, text := "", media := none } :=
  send_accepts_empty_text seededDirect 1 " " none 10 5 (by decide) (by decide)
    (by decide) (by decide)

/-- C4 counterexample: user 1 sends into the group conversation of users
1, 2 and 3, whose unread entries are all zero; the send succeeds but the
unread counters of participants 2 and 3 are not incremented — the route
only calls `incrementUnreadCount` when the conversation is not a group. -/
theorem group_send_increments_nothing_ctrex :
    (sendMessageRoute (some seededGroup) 1 "hi" none none 10 5).toOption.map
        (fun r => (r.2.getUnreadCount 2, r.2.getUnreadCount 3, r.2.unreadCounts)) =
      some (0, 0, seededGroup.unreadCounts) := by
  rfl

/-- C4 (amended): on every successful send the conversation's last-message
pointer is updated; in a direct conversation only the single resolved
recipient's unread counter is touched (the first matching entry is
incremented, a no-op when none exists), while in a group conversation no
unread counter changes at all. -/
theorem send_updates_lastMessage_and_unread (conv : Conversation) (senderId : Nat)
    (text : String) (file : Option FileUpload) (replyTo : Option Nat)
    (messageId now : Nat) (m : Message) (c2 : Conversation)
    (h : sendMessageRoute (some conv) senderId text file replyTo messageId now =
      .ok (m, c2)) :
    c2.lastMessage = some messageId ∧ c2.lastMessageAt = now ∧
      (conv.isGroup = true → c2.unreadCounts = conv.unreadCounts) ∧
      (conv.isGroup = false →
        c2.unreadCounts = incrEntries conv.unreadCounts m.recipient) := by
  by_cases hp : conv.participants.contains senderId = true
  · by_cases hm : isMutedFor conv senderId = true
    · have hmem : senderId ∈ conv.participants := by simpa using hp
      simp [sendMessageRoute, hmem, hm] at h
    · have hm2 : isMutedFor conv senderId = false := by simpa using hm
      cases hr : messageRecipient conv senderId with
      | none =>
        have hmem : senderId ∈ conv.participants := by simpa using hp
        simp [sendMessageRoute, hmem, hm2, hr] at h
      | some r =>
        by_cases hlen : (jsTrim text).length ≤ 1000
        case neg =>
          have hmem : senderId ∈ conv.participants := by simpa using hp
          have hgt : (storedContent (buildMessageContent text file)).text.length > 1000 := by
            simp only [storedContent, buildMessageContent_text]
            omega
          simp [sendMessageRoute, hmem, hm2, hr, hgt] at h
        rw [sendMessageRoute_ok conv senderId text file replyTo messageId now r hp
          hm2 hr hlen] at h
        rw [Except.ok.injEq, Prod.mk.injEq] at h
        obtain ⟨hm1, hc2⟩ := h
        cases hg : conv.isGroup with
        | true =>
          rw [hg] at hc2
          simp only [if_true] at hc2
          subst hc2
          simp [Conversation.updateLastMessage, hg]
        | false =>
          rw [hg] at hc2
          simp only [Bool.false_eq_true, if_false] at hc2
          subst hc2
          subst hm1
          simp [Conversation.updateLastMessage, Conversation.incrementUnreadCount, hg]
  · have hmem : senderId ∉ conv.participants := by
      intro hmm
      exact hp (by simpa using hmm)
    simp [sendMessageRoute, hmem] at h

/-- Witness for C4 (amended): user 1 sends a message into `seededDirect`;
the last-message pointer moves to the new id and timestamp, and the unread
side is the direct-branch increment of recipient 2's entry. -/
theorem send_updates_lastMessage_and_unread_witness :
    ((seededDirect.updateLastMessage 10 5).incrementUnreadCount 2).lastMessage = some 10 ∧
      ((seededDirect.updateLastMessage 10 5).incrementUnreadCount 2).lastMessageAt = 5 ∧
      (seededDirect.isGroup = true →
        ((seededDirect.updateLastMessage 10 5).incrementUnreadCount 2).unreadCounts =
          seededDirect.unreadCounts) ∧
      (seededDirect.isGroup = false →
        ((seededDirect.updateLastMessage 10 5).incrementUnreadCount 2).unreadCounts =
          incrEntries seededDirect.unreadCounts 2) :=
  send_updates_lastMessage_and_unread seededDirect 1 "hi" none none 10 5
    { id := 10
      conversation := 0
      sender := 1
      recipient := 2
      content := storedContent (buildMessageContent "hi" none)
      isRead := false
      isDelivered := false
      reactions := []
      replyTo := none
      isEdited := false
      editedAt := none
      editHistory := []
      isDeleted := false
      isScheduled := false
      scheduledFor := none
      createdAt := 5 }
    ((seededDirect.updateLastMessage 10 5).incrementUnreadCount 2) (by rfl)

/-- C5: with the conversation muted by user A for herself, A's send fails
with the muted-conversation error, while a send by an unmuted active
participant B of the same conversation — with a resolvable recipient and
a body within the schema's length bound — succeeds. -/
theorem muted_self_send_blocked_unmuted_send_succeeds (conv : Conversation)
    (a b : Nat) (tA tB : String) (fB : Option FileUpload) (rA rB : Option Nat)
    (idA idB nowA nowB : Nat)
    (hA : conv.participants.contains a = true)
    (hAm : isMutedFor conv a = true)
    (hB : conv.participants.contains b = true)
    (hBm : isMutedFor conv b = false)
    (hBr : (messageRecipient conv b).isSome = true)
    (hBlen : (jsTrim tB).length ≤ 1000) :
    sendMessageRoute (some conv) a tA none rA idA nowA = .error .mutedConversation ∧
      ∃ m c2, sendMessageRoute (some conv) b tB fB rB idB nowB = .ok (m, c2) := by
  constructor
  · have hmem : a ∈ conv.participants := by simpa using hA
    simp [sendMessageRoute, hmem, hAm]
  · obtain ⟨r, hr⟩ := Option.isSome_iff_exists.mp hBr
    exact ⟨_, _, sendMessageRoute_ok conv b tB fB rB idB nowB r hB hBm hr hBlen⟩

/-- Witness for C5: `mutedForOne` is muted by user 1; user 1's send is
rejected and user 2's send goes through. -/
theorem muted_self_send_blocked_unmuted_send_succeeds_witness :
    sendMessageRoute (some mutedForOne) 1 "hi" none none 10 5 =
        .error .mutedConversation ∧
      ∃ m c2, sendMessageRoute (some mutedForOne) 2 "yo" none none 11 6 = .ok (m, c2) :=
  muted_self_send_blocked_unmuted_send_succeeds mutedForOne 1 2 "hi" "yo" none none
    none 10 11 5 6 (by decide) (by decide) (by decide) (by decide) (by decide)
    (by decide)

/-- C6: for a stored, non-deleted message and a non-empty replacement
text, an edit by anyone other than the original sender fails with the
not-author error, and an edit by the sender attempted more than 15 minutes
(the edit window) after the message's creation fails with the
window-expired error — whatever the message's content. -/
theorem edit_author_and_window_enforced (m : Message) (editorId : Nat)
    (text : String) (now : Nat)
    (htext : (jsTrim text).length ≠ 0)
    (hdel : m.isDeleted = false) :
    (editorId ≠ m.sender →
        editMessageRoute (some m) editorId text now = .error .notAuthor) ∧
      (editorId = m.sender → m.createdAt + editTimeLimit < now →
        editMessageRoute (some m) editorId text now = .error .editWindowExpired) := by
  have ht : ((jsTrim text).length == 0) = false := by
    simpa using htext
  constructor
  · intro hne
    have hb : (m.sender != editorId) = true := by
      simp only [bne_iff_ne, ne_eq]
      exact fun hh => hne hh.symm
    simp [editMessageRoute, ht, hdel, hb]
  · intro heq hwin
    have hb : (m.sender != editorId) = false := by
      simp [heq]
    have hw : now - m.createdAt > editTimeLimit := by omega
    simp [editMessageRoute, ht, hdel, hb, hw]

/-- Witness for C6 on `sampleMessage` (sender 1, created at time 1000):
user 2's edit is rejected as not the author, and sender 1's edit more than
15 minutes after creation is rejected as expired. -/
theorem edit_author_and_window_enforced_witness :
    editMessageRoute (some sampleMessage) 2 "yo" 2000 = .error .notAuthor ∧
      editMessageRoute (some sampleMessage) 1 "yo" (1000 + editTimeLimit + 1) =
        .error .editWindowExpired :=
  ⟨(edit_author_and_window_enforced sampleMessage 2 "yo" 2000
      (by decide) (by decide)).1 (by decide),
    (edit_author_and_window_enforced sampleMessage 1 "yo" (1000 + editTimeLimit + 1)
      (by decide) (by decide)).2 (by decide) (by decide)⟩

/-- Equation for `findOrCreateDirect` when the pair query finds an
existing conversation. -/
theorem findOrCreateDirect_of_found {db : MessagingDB} {me rid now : Nat}
    {c : Conversation} (hf : findDirectConversation db me rid = some c) :
    findOrCreateDirect db me rid now = (c.id, db) := by
  unfold findOrCreateDirect
  rw [hf]

/-- Equation for `findOrCreateDirect` when the pair query finds nothing. -/
theorem findOrCreateDirect_of_not_found {db : MessagingDB} {me rid now : Nat}
    (hf : findDirectConversation db me rid = none) :
    findOrCreateDirect db me rid now =
      ((newDirectConversation db.nextConversationId me rid now).id,
       { conversations :=
           db.conversations ++ [newDirectConversation db.nextConversationId me rid now],
         nextConversationId := db.nextConversationId + 1 }) := by
  unfold findOrCreateDirect
  rw [hf]

/-- C7: when the creation route succeeds for a (sender, recipient) pair —
in particular with no block in either direction and permissive privacy —
calling it again on the resulting store returns the same conversation id
and leaves the store unchanged. -/
theorem findOrCreateDirect_idempotent (currentUser : User) (recipient : Option User)
    (recipientId : Nat) (db db1 : MessagingDB) (cid now now2 : Nat)
    (h : createConversationRoute currentUser recipient recipientId db now =
      .ok (cid, db1)) :
    createConversationRoute currentUser recipient recipientId db1 now2 =
      .ok (cid, db1) := by
  unfold createConversationRoute at h ⊢
  cases hcm : canMessageUser currentUser recipientId recipient with
  | error e =>
    rw [hcm] at h
    simp at h
  | ok v =>
    rw [hcm] at h
    dsimp only at h ⊢
    rw [Except.ok.injEq] at h
    rw [Except.ok.injEq]
    cases hf : findDirectConversation db currentUser.id recipientId with
    | some c =>
      rw [findOrCreateDirect_of_found hf] at h
      injection h with h1 h2
      subst h1
      subst h2
      rw [findOrCreateDirect_of_found hf]
    | none =>
      rw [findOrCreateDirect_of_not_found hf] at h
      injection h with h1 h2
      subst h1
      subst h2
      have hfind : findDirectConversation
          { conversations := db.conversations ++
              [newDirectConversation db.nextConversationId currentUser.id recipientId now],
            nextConversationId := db.nextConversationId + 1 }
          currentUser.id recipientId =
          some (newDirectConversation db.nextConversationId currentUser.id recipientId now) := by
        unfold findDirectConversation at hf ⊢
        rw [List.find?_append, hf]
        simp [directQueryMatches, newDirectConversation]
      rw [findOrCreateDirect_of_found hfind]

/-- Witness for C7: the second call after creating the direct conversation
of `sampleSender` and `sampleRecipient` on an empty store. -/
theorem findOrCreateDirect_idempotent_witness :
    createConversationRoute sampleSender (some sampleRecipient) 2
        { conversations := [newDirectConversation 0 1 2 0], nextConversationId := 1 } 7 =
      .ok (0, { conversations := [newDirectConversation 0 1 2 0],
                nextConversationId := 1 }) :=
  findOrCreateDirect_idempotent sampleSender (some sampleRecipient) 2
    { conversations := [], nextConversationId := 0 }
    { conversations := [newDirectConversation 0 1 2 0], nextConversationId := 1 }
    0 0 7 (by rfl)

/-- C9: for a requester who is a participant, the message-listing route
returns a page that is in ascending chronological order — it is fetched in
descending creation order, cut to the page, then reversed — and contains
no soft-deleted message. -/
theorem list_messages_ascending_and_no_deleted (conv : Conversation)
    (requesterId : Nat) (allMessages : List Message) (limit skip : Nat)
    (hpart : conv.participants.contains requesterId = true) :
    ∃ page,
      listMessagesRoute (some conv) requesterId allMessages limit skip = .ok page ∧
        page.Pairwise (fun m1 m2 => m1.createdAt ≤ m2.createdAt) ∧
        ∀ m ∈ page, m.isDeleted = false := by
  have hmem : requesterId ∈ conv.participants := by simpa using hpart
  have hs : ((allMessages.filter
      (fun m => m.conversation == conv.id && !m.isDeleted)).mergeSort
        byCreatedAtDesc).Pairwise (fun a b => byCreatedAtDesc a b = true) :=
    List.sorted_mergeSort
      (fun a b c hab hbc => by
        simp only [byCreatedAtDesc, decide_eq_true_eq] at *
        omega)
      (fun a b => by
        simp only [byCreatedAtDesc]
        rcases Nat.le_total b.createdAt a.createdAt with hh | hh <;> simp [hh])
      (allMessages.filter (fun m => m.conversation == conv.id && !m.isDeleted))
  have hsub : ((((allMessages.filter
      (fun m => m.conversation == conv.id && !m.isDeleted)).mergeSort
        byCreatedAtDesc).drop skip).take limit).Sublist
      ((allMessages.filter
        (fun m => m.conversation == conv.id && !m.isDeleted)).mergeSort
          byCreatedAtDesc) :=
    (List.take_sublist _ _).trans (List.drop_sublist _ _)
  refine ⟨((((allMessages.filter
      (fun m => m.conversation == conv.id && !m.isDeleted)).mergeSort
        byCreatedAtDesc).drop skip).take limit).reverse,
    by simp [listMessagesRoute, hmem], ?_, ?_⟩
  · rw [List.pairwise_reverse]
    exact (hs.sublist hsub).imp fun hab => by
      simpa [byCreatedAtDesc] using hab
  · intro m hm
    rw [List.mem_reverse] at hm
    have h2 : m ∈ (allMessages.filter
        (fun m => m.conversation == conv.id && !m.isDeleted)).mergeSort
          byCreatedAtDesc := hsub.subset hm
    have h3 : m ∈ allMessages.filter
        (fun m => m.conversation == conv.id && !m.isDeleted) :=
      (List.mergeSort_perm _ byCreatedAtDesc).subset h2
    rw [List.mem_filter] at h3
    have h4 := h3.2
    simp only [Bool.and_eq_true, Bool.not_eq_true'] at h4
    exact h4.2

/-- Witness for C9: listing three stored messages of `seededDirect` — two
live ones with out-of-order creation times and one soft-deleted. -/
theorem list_messages_ascending_and_no_deleted_witness :
    ∃ page,
      listMessagesRoute (some seededDirect) 1
          [{ sampleMessage with id := 1, createdAt := 5 },
           { sampleMessage with id := 2, createdAt := 3 },
           { sampleMessage with id := 3, createdAt := 9, isDeleted := true }] 50 0 =
        .ok page ∧
        page.Pairwise (fun m1 m2 => m1.createdAt ≤ m2.createdAt) ∧
        ∀ m ∈ page, m.isDeleted = false :=
  list_messages_ascending_and_no_deleted seededDirect 1
    [{ sampleMessage with id := 1, createdAt := 5 },
     { sampleMessage with id := 2, createdAt := 3 },
     { sampleMessage with id := 3, createdAt := 9, isDeleted := true }] 50 0 (by decide)

end Messaging
